import Mathlib

/-!
Shallow embedding of `connect-mongoose-session-store` (src/lib/index.js).

The store keeps two collections: live `Session` documents and
`SessionHistory` documents.  Storage is modelled as a pure state
(`StoreState`); every mongoose CRUD call is modelled as succeeding
(the database itself and the object-document mapper are external
collaborators), except the individual history-clone saves in
`addSessionHistoryData`, whose outcomes are supplied by an oracle
`ok : Nat → Bool` (index `i` is the clone's position in the
`async.parallel` fan-out) because the code explicitly tolerates their
failure.  Dates are modelled as natural numbers; `new Date()` at the
start of an operation is the parameter `now`.  The `process.nextTick`
sweep scheduled inside `set` runs to completion within the same step
(single-threaded cooperative scheduling), with the same `now`.
The store is modelled in its default configuration `stringify: false`,
where `_serialize_session` and `_unserialize_session` are the identity.
-/

/-- The serializable form of an express cookie; `set` reads
`session.cookie.originalMaxAge` (src/lib/index.js line 365). -/
structure Cookie where
  originalMaxAge : Nat
deriving DecidableEq, Repr

/-- The passport sub-object of a session payload; `_getSessionUser`
reads `session.passport.user` (line 113). -/
structure Passport where
  user : Option String
deriving DecidableEq, Repr

/-- A session payload as handed to `set` by the middleware.  The fields
the code inspects (`user`, `passport`, `cookie`, `forceUpdate`, `sid`)
are explicit; all remaining data fields are the opaque association list
`data`.  `none` models an absent property.  Function-valued fields are
not representable: `_removeFunctionsFromObject` is therefore the
identity on this model. -/
structure Payload where
  user : Option String := none
  passport : Option Passport := none
  cookie : Option Cookie := none
  forceUpdate : Option Bool := none
  sid : Option String := none
  data : List (String × String) := []
deriving DecidableEq, Repr

/-- The two properties `_getSessionUser` (lines 108-118) dereferences on
its argument: `.user` and `.passport`. -/
structure UserView where
  user : Option String
  passport : Option Passport
deriving DecidableEq, Repr

/-- JavaScript truthiness of a possibly absent string: `undefined` and
the empty string are falsy. -/
def truthyStr : Option String → Bool
  | none => false
  | some s => s != ""

/-- Embeds `_getSessionUser` (lines 108-118): return `session.user` if
truthy, else `session.passport.user` if `passport` is present and its
`user` truthy, else null (`none`). -/
def getSessionUser (v : UserView) : Option String :=
  if truthyStr v.user then v.user
  else
    match v.passport with
    | some pp => if truthyStr pp.user then pp.user else none
    | none => none

/-- The user view of a payload object: its own `user` and `passport`
properties. -/
def Payload.userView (p : Payload) : UserView := ⟨p.user, p.passport⟩

/-- Embeds `_hasValidUserData` (lines 126-128):
`_getSessionUser(session) !== null`.  Note: this helper is defined in
src/lib/index.js but never called anywhere in the file. -/
def hasValidUserData (p : Payload) : Bool := (getSessionUser p.userView).isSome

/-- A live `Session` document (default schema, lines 24-45): schema
paths `sid`, `session`, `lastAccessTime`, `expires`.  `dateLoggedIn` is
omitted: no operation modelled here ever reads it.  `expires = none`
models a document whose `expires` path is unset. -/
structure SessionRecord where
  sid : String
  session : Payload
  lastAccessTime : Nat
  expires : Option Nat
deriving DecidableEq, Repr

/-- The user view of a `Session` document.  The document's schema paths
are `sid`, `session`, `dateLoggedIn`, `lastAccessTime`, `expires`, so
reading `.user` or `.passport` on the document itself yields
`undefined`: both components are `none`.  `SessionStore.prototype.get`
(line 231) passes the document — not `document.session` — to
`_getSessionUser`. -/
def SessionRecord.userView (_r : SessionRecord) : UserView := ⟨none, none⟩

/-- A `SessionHistory` document (default schema, lines 48-62): the
fields copied from the live document that matter here are `sid` and
`session`; the live document's `expires` and `lastAccessTime` are not
part of the history schema, and `_id` is nulled before saving so the
clone gets a fresh identity (lines 312-315). -/
structure HistoryRecord where
  sid : String
  session : Payload
deriving DecidableEq, Repr

/-- The history clone of a live document: `new SessionHistory(session.toObject())`
with `_id` nulled (lines 312-315), restricted to the history schema paths. -/
def toHistory (r : SessionRecord) : HistoryRecord := ⟨r.sid, r.session⟩

/-- The abstract state of the two collections. -/
structure StoreState where
  live : List SessionRecord
  history : List HistoryRecord
deriving DecidableEq, Repr

/-- The state of a freshly created store. -/
def emptyState : StoreState := ⟨[], []⟩

/-- Errors an operation can report through its callback. -/
inductive Err where
  /-- The max-age validation failure object of `set` (lines 365-369). -/
  | configErr
  /-- A synchronous exception caught by the `try`/`catch` of `set`
  (line 398), e.g. reading `originalMaxAge` of an absent cookie. -/
  | thrownErr
deriving DecidableEq, Repr

/-- Embeds `_removeFunctionsFromObject` (lines 132-143): copies every
non-function field.  The model payload holds only data fields, so this
is the identity copy. -/
def removeFunctionsFromObject (p : Payload) : Payload := p

/-- Embeds `_pasreCookies` (lines 147-152): replaces `cookie` by
`cookie.toJSON()` when available.  Model cookies are already in their
serializable form, so this is the identity. -/
def pasreCookies (p : Payload) : Payload := p

/-- Embeds `this._serialize_session` in the default configuration
`stringify: false` (lines 188-190): the identity. -/
def serializeSession (p : Payload) : Payload := p

namespace SessionStore

/-- Embeds `Session.findOne({sid : sid})` (`_findSessions`, lines
255-260): the first live document whose `sid` matches. -/
def findOne (l : List SessionRecord) (sid : String) : Option SessionRecord :=
  l.find? (fun r => r.sid == sid)

/-- The validity test of `get` (line 230):
`!sessionData.expires || new Date() < sessionData.expires`. -/
def expiryValid (now : Nat) (r : SessionRecord) : Bool :=
  match r.expires with
  | none => true
  | some e => decide (now < e)

/-- The selection test of the sweep (line 285):
`Session.where('expires').lt(new Date())`, i.e. `expires` set and
strictly before `now`. -/
def expiredLt (now : Nat) (r : SessionRecord) : Bool :=
  match r.expires with
  | none => false
  | some e => decide (e < now)

/-- The history clones produced by the `async.parallel` fan-out of
`addSessionHistoryData` (lines 308-324): clone `i` is saved iff
`ok i`; a failed save is only logged (line 318) and contributes no
document. -/
def cloneSaves : List SessionRecord → (Nat → Bool) → List HistoryRecord
  | [], _ => []
  | r :: rs, ok => (if ok 0 then [toHistory r] else []) ++ cloneSaves rs (fun i => ok (i + 1))

/-- Embeds `SessionStore.prototype.addSessionHistoryData` (lines
307-331): saves one history clone per listed document, each
independently with outcome `ok i`; every per-clone callback passes
`null` ("dont want to break any features passing error as null
always", line 320-321), so the `async.parallel` join always hands
`next` a null error — the error component is always `none`. -/
def addSessionHistoryData (hist : List HistoryRecord) (arr : List SessionRecord)
    (ok : Nat → Bool) : List HistoryRecord × Option Err :=
  (hist ++ cloneSaves arr ok, none)

/-- Embeds `SessionStore.prototype.addToHistory` (lines 338-348):
`Session.find(criteria)`, then archive the matches. -/
def addToHistory (st : StoreState) (criteria : SessionRecord → Bool) (ok : Nat → Bool) :
    StoreState × Option Err :=
  let found := st.live.filter criteria
  let res := addSessionHistoryData st.history found ok
  ({ st with history := res.1 }, res.2)

/-- Embeds `SessionStore.prototype.destroy` (lines 410-416):
`addToHistory({sid : sid}, ...)`, then `Session.remove({sid : sid})` -
whose error (none in this model) is what reaches `next`; the archival
error is ignored by the interposed callback. -/
def destroy (st : StoreState) (sid : String) (ok : Nat → Bool) : StoreState × Option Err :=
  let st₁ := (addToHistory st (fun r => r.sid == sid) ok).1
  ({ st₁ with live := st₁.live.filter (fun r => !(r.sid == sid)) }, none)

/-- Embeds `SessionStore.prototype.get` (lines 224-245).  Result:
(new state, error argument of `next`, data argument of `next`).
On a valid hit the code mutates the in-memory document
(`sessionData.session.user = _getSessionUser(sessionData)` — note the
argument is the document, not the payload — and
`sessionData.session.sid = sid`) and returns the payload without
saving, so the state is unchanged.  On an expired hit it delegates to
`destroy(sid, next)`, whose single callback argument leaves the data
argument absent. -/
def get (st : StoreState) (now : Nat) (sid : String) (ok : Nat → Bool) :
    StoreState × Option Err × Option Payload :=
  match findOne st.live sid with
  | some sessionData =>
    if expiryValid now sessionData then
      (st, none,
        some { sessionData.session with
                 user := getSessionUser sessionData.userView,
                 sid := some sid })
    else
      let d := destroy st sid ok
      (d.1, d.2, none)
  | none => (st, none, none)

/-- Embeds `SessionStore.prototype.clearExpiredSessions` (lines
283-299): select the documents with `expires` before `now`, archive
them (logging but ignoring the join error), then remove each selected
document. -/
def clearExpiredSessions (st : StoreState) (now : Nat) (ok : Nat → Bool) : StoreState :=
  let expired := st.live.filter (expiredLt now)
  let res := addSessionHistoryData st.history expired ok
  { live := st.live.filter (fun r => !(expiredLt now r)), history := res.1 }

/-- In-place update of the document `Session.findOne` returned: the
first document whose `sid` matches is replaced by its updated form
(`storedSession.set(...)` then `storedSession.save()`). -/
def updateFirst (f : SessionRecord → SessionRecord) (sid : String) :
    List SessionRecord → List SessionRecord
  | [] => []
  | r :: rs => if r.sid == sid then f r :: rs else r :: updateFirst f sid rs

/-- The value mongoose assigns to `lastAccessTime` on insert: the
schema default `new Date()`, evaluated once when the schema object is
built (line 35-38), i.e. a constant of the process, modelled as 0. -/
def schemaDefaultDate : Nat := 0

/-- Embeds `SessionStore.prototype.set` (lines 358-401).  Steps:
strip functions, normalize the cookie, build
`s = \x7b sid, session: serialize(sessionToStore) \x7d`; reject with the
configuration error if `maxAge > session.cookie.originalMaxAge`
(reading `originalMaxAge` of an absent cookie throws, caught by the
surrounding `try` and handed to `next`); compute
`expires = now + maxAge`; then upsert: if a document with this `sid`
exists, overwrite its `session` only when
`s.session.forceUpdate === true` (deleting the flag first), and always
refresh `lastAccessTime` and `expires`; otherwise insert a new
document.  Afterwards the `process.nextTick` sweep
`clearExpiredSessions` runs (modelled within the same step).
Note this revision performs no `_hasValidUserData` check before
persisting. -/
def set (maxAge : Nat) (st : StoreState) (now : Nat) (sid : String) (session : Payload)
    (ok : Nat → Bool) : StoreState × Option Err :=
  let stored := serializeSession (pasreCookies (removeFunctionsFromObject session))
  match session.cookie with
  | none => (st, some Err.thrownErr)
  | some cookie =>
    if maxAge > cookie.originalMaxAge then
      (st, some Err.configErr)
    else
      let expires := now + maxAge
      match findOne st.live sid with
      | some _ =>
        let live' :=
          if stored.forceUpdate = some true then
            updateFirst (fun r =>
              { r with session := { stored with forceUpdate := none },
                       lastAccessTime := now, expires := some expires }) sid st.live
          else
            updateFirst (fun r =>
              { r with lastAccessTime := now, expires := some expires }) sid st.live
        (clearExpiredSessions { st with live := live' } now ok, none)
      | none =>
        let newRec : SessionRecord :=
          { sid := sid, session := stored,
            lastAccessTime := schemaDefaultDate, expires := some expires }
        (clearExpiredSessions { st with live := st.live ++ [newRec] } now ok, none)

/-- Embeds `SessionStore.prototype.length` (lines 424-432): count the
documents matching the empty criteria `\x7b\x7d` and hand `(null, count)` to
`next`. -/
def length (st : StoreState) : Option Err × Nat :=
  (none, (st.live.filter (fun _ => true)).length)

/-- Embeds `SessionStore.prototype.clear` (lines 440-449):
`addToHistory({}, ...)` (its error only logged), then `Session.drop`,
then `next()` with no error. -/
def clear (st : StoreState) (ok : Nat → Bool) : StoreState × Option Err :=
  let st₁ := (addToHistory st (fun _ => true) ok).1
  ({ st₁ with live := [] }, none)

/-- Embeds `SessionStore.prototype.getAndReset` (lines 269-276).  The
second component is the invocation of the caller's `next`
(`none` = never invoked).  The body calls `get` with an internal
handler; when that handler receives a truthy payload it calls
`self.set(sid, sessData)` with no callback; in no branch does the body
reference `next`. -/
def getAndReset (maxAge : Nat) (st : StoreState) (now : Nat) (sid : String)
    (ok okSweep : Nat → Bool) : StoreState × Option (Option Err × Option Payload) :=
  let g := get st now sid ok
  match g.2.2 with
  | some sessData => ((set maxAge g.1 now sid sessData okSweep).1, none)
  | none => (g.1, none)

end SessionStore

/-- One middleware-issued operation, carrying its own clock reading and
history-save oracle. -/
inductive Op where
  | doGet (sid : String) (now : Nat) (ok : Nat → Bool)
  | doSet (sid : String) (p : Payload) (now : Nat) (ok : Nat → Bool)
  | doDestroy (sid : String) (ok : Nat → Bool)
  | doClear (ok : Nat → Bool)

/-- Run one operation to completion (including the sweep `set`
schedules) and keep the resulting state. -/
def applyOp (maxAge : Nat) (st : StoreState) : Op → StoreState
  | .doGet sid now ok => (SessionStore.get st now sid ok).1
  | .doSet sid p now ok => (SessionStore.set maxAge st now sid p ok).1
  | .doDestroy sid ok => (SessionStore.destroy st sid ok).1
  | .doClear ok => (SessionStore.clear st ok).1

/-- Run a sequence of operations from the empty store. -/
def run (maxAge : Nat) (ops : List Op) : StoreState :=
  ops.foldl (applyOp maxAge) emptyState

/-- No two live documents share a `sid`. -/
def uniqueSids (l : List SessionRecord) : Prop :=
  l.Pairwise (fun a b => a.sid ≠ b.sid)

/-- A payload with neither a top-level `user` nor a nested
`passport.user`, whose cookie passes the max-age validation for a
configured max-age of 100. -/
def noUserPayload : Payload := { cookie := some ⟨100⟩ }

/-- A payload authenticated by a top-level `user` field. -/
def alicePayload : Payload := { user := some "alice", cookie := some ⟨100⟩ }

/-- The store state right after `set("s1", alicePayload)` succeeds on an
empty store (configured max-age 100, clock 0). -/
def aliceState : StoreState :=
  (SessionStore.set 100 emptyState 0 "s1" alicePayload (fun _ => true)).1

/-- A payload whose cookie carries `originalMaxAge = 500`. -/
def cfgPayload : Payload := { cookie := some ⟨500⟩ }

/-- A concrete live document (expiry 10) used by the witnesses. -/
def wRec : SessionRecord :=
  { sid := "w", session := {}, lastAccessTime := 0, expires := some 10 }

/-- A store holding the single live document `wRec`. -/
def wSt : StoreState := { live := [wRec], history := [] }

/-- A payload whose `forceUpdate` flag is present but `false`, with a
cookie passing validation for a configured max-age of 100. -/
def p5 : Payload := { cookie := some ⟨100⟩, forceUpdate := some false }

namespace SessionStore

theorem findOne_filter {l : List SessionRecord} {sid : String} {r : SessionRecord}
    {q : SessionRecord → Bool} (hq : q r = true) :
    findOne l sid = some r → findOne (l.filter q) sid = some r := by
  induction l with
  | nil => simp [findOne]
  | cons x xs ih =>
    intro h
    simp only [findOne] at h ⊢
    cases hx : (x.sid == sid) with
    | true =>
      simp only [List.find?, hx] at h
      have hr : x = r := by injection h
      subst hr
      rw [List.filter_cons, if_pos hq]
      simp only [List.find?, hx]
    | false =>
      simp only [List.find?, hx] at h
      rw [List.filter_cons]
      by_cases hqx : q x = true
      · rw [if_pos hqx]
        simp only [List.find?, hx]
        exact ih h
      · rw [if_neg hqx]
        exact ih h

theorem findOne_updateFirst {f : SessionRecord → SessionRecord}
    (hf : ∀ a, (f a).sid = a.sid) {sid : String} {l : List SessionRecord} {r : SessionRecord} :
    findOne l sid = some r → findOne (updateFirst f sid l) sid = some (f r) := by
  induction l with
  | nil => simp [findOne]
  | cons x xs ih =>
    intro h
    simp only [findOne] at h ⊢
    cases hx : (x.sid == sid) with
    | true =>
      simp only [List.find?, hx] at h
      have hr : x = r := by injection h
      subst hr
      have hfx : ((f x).sid == sid) = true := by rw [hf x]; exact hx
      simp only [updateFirst, hx, if_true, List.find?, hfx]
    | false =>
      simp only [List.find?, hx] at h
      simp only [updateFirst, hx, Bool.false_eq_true, if_false]
      simp only [List.find?, hx]
      exact ih h

theorem filter_not_filter_self (l : List SessionRecord) (s : String) :
    (l.filter (fun r => !(r.sid == s))).filter (fun r => r.sid == s) = [] := by
  induction l with
  | nil => rfl
  | cons x xs ih =>
    by_cases hx : (x.sid == s) = true
    · simp [List.filter_cons, hx, ih]
    · simp [List.filter_cons, hx, ih]

theorem findOne_filter_not_self (l : List SessionRecord) (s : String) :
    findOne (l.filter (fun r => !(r.sid == s))) s = none := by
  simp only [findOne]
  rw [List.find?_eq_none]
  intro x hx
  have hmem := (List.mem_filter.mp hx).2
  simp only [Bool.not_eq_eq_eq_not, Bool.not_true] at hmem
  simp [hmem]

theorem cloneSaves_all : ∀ (l : List SessionRecord) (ok : Nat → Bool),
    (∀ i, ok i = true) → cloneSaves l ok = l.map toHistory
  | [], _, _ => rfl
  | r :: rs, ok, hok => by
    simp [cloneSaves, hok 0, cloneSaves_all rs (fun i => ok (i + 1)) (fun i => hok (i + 1))]

theorem toHistory_mem_cloneSaves : ∀ (l : List SessionRecord) (ok : Nat → Bool) (i : Nat)
    (hi : i < l.length), ok i = true → toHistory (l.get ⟨i, hi⟩) ∈ cloneSaves l ok
  | r :: rs, ok, 0, _, hok => by simp [cloneSaves, hok]
  | r :: rs, ok, i + 1, hi, hok => by
    have hi' : i < rs.length := Nat.lt_of_succ_lt_succ hi
    have hmem := toHistory_mem_cloneSaves rs (fun j => ok (j + 1)) i hi' hok
    show toHistory (rs.get ⟨i, hi'⟩) ∈
      (if ok 0 then [toHistory r] else []) ++ cloneSaves rs (fun j => ok (j + 1))
    exact List.mem_append_right _ hmem

theorem map_sid_updateFirst (f : SessionRecord → SessionRecord)
    (hf : ∀ a, (f a).sid = a.sid) (s : String) :
    ∀ l : List SessionRecord,
      (updateFirst f s l).map (fun r => r.sid) = l.map (fun r => r.sid)
  | [] => rfl
  | x :: xs => by
    by_cases hx : (x.sid == s) = true
    · simp [updateFirst, hx, hf]
    · simp [updateFirst, hx, map_sid_updateFirst f hf s xs]

theorem uniqueSids_filter (q : SessionRecord → Bool) {l : List SessionRecord}
    (h : uniqueSids l) : uniqueSids (l.filter q) :=
  List.Pairwise.sublist (List.filter_sublist l) h

theorem uniqueSids_updateFirst (f : SessionRecord → SessionRecord)
    (hf : ∀ a, (f a).sid = a.sid) (s : String) {l : List SessionRecord}
    (h : uniqueSids l) : uniqueSids (updateFirst f s l) := by
  have h1 : (l.map (fun r => r.sid)).Pairwise (fun a b => a ≠ b) :=
    List.pairwise_map.mpr h
  have h2 : ((updateFirst f s l).map (fun r => r.sid)).Pairwise (fun a b => a ≠ b) := by
    rw [map_sid_updateFirst f hf s l]
    exact h1
  exact List.pairwise_map.mp h2

theorem uniqueSids_append_new {l : List SessionRecord} {s : String} {r : SessionRecord}
    (h : uniqueSids l) (hn : findOne l s = none) (hr : r.sid = s) :
    uniqueSids (l ++ [r]) := by
  unfold uniqueSids at h ⊢
  rw [List.pairwise_append]
  refine ⟨h, List.pairwise_singleton _ _, ?_⟩
  intro a ha b hb
  have hb' : b = r := by simpa using hb
  subst hb'
  have hne := List.find?_eq_none.mp hn a ha
  rw [hr]
  intro hEq
  exact hne (by simp [hEq])

end SessionStore

theorem uniqueSids_applyOp (maxAge : Nat) (st : StoreState) (op : Op)
    (h : uniqueSids st.live) : uniqueSids (applyOp maxAge st op).live := by
  cases op with
  | doGet sid now ok =>
    simp only [applyOp, SessionStore.get]
    cases hf : SessionStore.findOne st.live sid with
    | none => exact h
    | some r =>
      by_cases hv : SessionStore.expiryValid now r = true
      · simp only [hv, if_true]
        exact h
      · have hv' : SessionStore.expiryValid now r = false := by
          cases hvv : SessionStore.expiryValid now r with
          | false => rfl
          | true => exact absurd hvv hv
        simp only [hv', Bool.false_eq_true, if_false]
        exact SessionStore.uniqueSids_filter _ h
  | doSet sid p now ok =>
    simp only [applyOp, SessionStore.set]
    cases hc : p.cookie with
    | none => exact h
    | some c =>
      by_cases hgt : maxAge > c.originalMaxAge
      · simp only [if_pos hgt]
        exact h
      · simp only [if_neg hgt]
        cases hf : SessionStore.findOne st.live sid with
        | some r =>
          by_cases hforce :
              (serializeSession (pasreCookies (removeFunctionsFromObject p))).forceUpdate
                = some true
          · simp only [if_pos hforce, SessionStore.clearExpiredSessions]
            apply SessionStore.uniqueSids_filter
            apply SessionStore.uniqueSids_updateFirst
            · exact fun a => rfl
            · exact h
          · simp only [if_neg hforce, SessionStore.clearExpiredSessions]
            apply SessionStore.uniqueSids_filter
            apply SessionStore.uniqueSids_updateFirst
            · exact fun a => rfl
            · exact h
        | none =>
          simp only [SessionStore.clearExpiredSessions]
          exact SessionStore.uniqueSids_filter _
            (SessionStore.uniqueSids_append_new h hf rfl)
  | doDestroy sid ok =>
    simp only [applyOp]
    exact SessionStore.uniqueSids_filter _ h
  | doClear ok =>
    simp only [applyOp]
    exact List.Pairwise.nil

theorem set_snd_oblivious (maxAge : Nat) (st : StoreState) (now : Nat) (sid : String)
    (p : Payload) (ok ok' : Nat → Bool) :
    (SessionStore.set maxAge st now sid p ok).2 = (SessionStore.set maxAge st now sid p ok').2 := by
  simp only [SessionStore.set]
  cases p.cookie with
  | none => rfl
  | some c =>
    by_cases hgt : maxAge > c.originalMaxAge
    · simp only [if_pos hgt]
    · simp only [if_neg hgt]
      cases SessionStore.findOne st.live sid with
      | some r => rfl
      | none => rfl

/-- Claim C8: starting from the empty store, after every sequence of
get/set/destroy/clear operations run to completion (each including the
sweep `set` schedules), at most one live session document exists per
session id. -/
theorem run_preserves_unique_sids (maxAge : Nat) (ops : List Op) :
    uniqueSids (run maxAge ops).live := by
  suffices h : ∀ st : StoreState, uniqueSids st.live →
      uniqueSids (ops.foldl (applyOp maxAge) st).live by
    exact h emptyState List.Pairwise.nil
  induction ops with
  | nil => intro st hst; exact hst
  | cons op rest ih =>
    intro st hst
    exact ih _ (uniqueSids_applyOp maxAge st op hst)

/-- Claim C4: when the configured max-age exceeds the payload's
`cookie.originalMaxAge`, `set` reports the configuration error and
persists nothing — the state is returned unchanged. -/
theorem set_rejects_large_maxAge (maxAge : Nat) (st : StoreState) (now : Nat) (sid : String)
    (p : Payload) (ok : Nat → Bool) (c : Cookie)
    (hc : p.cookie = some c) (hgt : maxAge > c.originalMaxAge) :
    SessionStore.set maxAge st now sid p ok = (st, some Err.configErr) := by
  simp [SessionStore.set, hc, hgt]

/-- Witness for C4 at the spec's scenario: configured max-age 1000,
cookie max-age 500. -/
theorem set_rejects_large_maxAge_witness :
    SessionStore.set 1000 emptyState 0 "w" cfgPayload (fun _ => true)
      = (emptyState, some Err.configErr) :=
  set_rejects_large_maxAge 1000 emptyState 0 "w" cfgPayload (fun _ => true) ⟨500⟩ rfl
    (by decide)

/-- Claim C10: `getAndReset` never invokes its completion callback
`next`, whatever the outcome of the underlying lookup. -/
theorem getAndReset_never_invokes_next (maxAge : Nat) (st : StoreState) (now : Nat)
    (sid : String) (ok okSweep : Nat → Bool) :
    (SessionStore.getAndReset maxAge st now sid ok okSweep).2 = none := by
  simp only [SessionStore.getAndReset]
  cases (SessionStore.get st now sid ok).2.2 with
  | some d => rfl
  | none => rfl

/-- Claim C9: `length` hands its callback a null error together with
the number of live session documents. -/
theorem length_reports_live_count (st : StoreState) :
    (SessionStore.length st).1 = none ∧ (SessionStore.length st).2 = st.live.length := by
  refine ⟨rfl, ?_⟩
  show (st.live.filter (fun _ => true)).length = st.live.length
  simp

/-- Claim C5: a `set` on an existing live document (passing the cookie
validation) overwrites the stored `session` payload exactly when the
incoming payload has `forceUpdate === true` (with the flag deleted
first); in every case it refreshes `lastAccessTime` to the current
clock and `expires` to `now + maxAge`, and reports success. -/
theorem set_existing_refreshes_without_overwrite (maxAge : Nat) (st : StoreState) (now : Nat)
    (sid : String) (p : Payload) (ok : Nat → Bool) (r : SessionRecord) (c : Cookie)
    (hfind : SessionStore.findOne st.live sid = some r)
    (hc : p.cookie = some c) (hle : maxAge ≤ c.originalMaxAge) :
    (SessionStore.set maxAge st now sid p ok).2 = none ∧
    SessionStore.findOne (SessionStore.set maxAge st now sid p ok).1.live sid =
      some { r with
             session := if p.forceUpdate = some true
                        then { p with forceUpdate := none } else r.session,
             lastAccessTime := now,
             expires := some (now + maxAge) } := by
  have hgt : ¬ maxAge > c.originalMaxAge := Nat.not_lt.mpr hle
  have hnotexp : ∀ s' : Payload,
      (fun x => !SessionStore.expiredLt now x)
        ({ r with session := s', lastAccessTime := now,
                  expires := some (now + maxAge) } : SessionRecord) = true := by
    intro s'
    have hnl : ¬ (now + maxAge < now) := by omega
    simp [SessionStore.expiredLt, hnl]
  by_cases hforce : p.forceUpdate = some true
  · constructor
    · simp only [SessionStore.set, serializeSession, pasreCookies, removeFunctionsFromObject,
        hc, if_neg hgt, hfind, if_pos hforce]
    · simp only [SessionStore.set, serializeSession, pasreCookies, removeFunctionsFromObject,
        hc, if_neg hgt, hfind, if_pos hforce, if_pos rfl, hforce,
        SessionStore.clearExpiredSessions]
      simp only [hforce, if_pos]
      refine SessionStore.findOne_filter (hnotexp _)
        (SessionStore.findOne_updateFirst ?_ hfind)
      exact fun a => rfl
  · constructor
    · simp only [SessionStore.set, serializeSession, pasreCookies, removeFunctionsFromObject,
        hc, if_neg hgt, hfind, if_neg hforce]
    · simp only [SessionStore.set, serializeSession, pasreCookies, removeFunctionsFromObject,
        hc, if_neg hgt, hfind, if_neg hforce, SessionStore.clearExpiredSessions]
      refine SessionStore.findOne_filter (hnotexp _)
        (SessionStore.findOne_updateFirst ?_ hfind)
      exact fun a => rfl

/-- Witness for C5: a second `set` on the id "w" with `forceUpdate`
present but false refreshes the timestamps and keeps the stored
payload. -/
theorem set_existing_refreshes_without_overwrite_witness :
    (SessionStore.set 100 wSt 5 "w" p5 (fun _ => true)).2 = none ∧
    SessionStore.findOne (SessionStore.set 100 wSt 5 "w" p5 (fun _ => true)).1.live "w" =
      some { wRec with
             session := if p5.forceUpdate = some true
                        then { p5 with forceUpdate := none } else wRec.session,
             lastAccessTime := 5,
             expires := some (5 + 100) } :=
  set_existing_refreshes_without_overwrite 100 wSt 5 "w" p5 (fun _ => true) wRec ⟨100⟩
    rfl rfl (by decide)

/-- Claim C3: `destroy` on an id with a live document archives it into
the history collection and deletes it from the live collection
(assuming the history saves succeed): afterwards no live document with
that id remains, at least one more history document with that id
exists, and the callback receives no error. -/
theorem destroy_archives_then_removes (st : StoreState) (sid : String) (ok : Nat → Bool)
    (r : SessionRecord)
    (hfind : SessionStore.findOne st.live sid = some r)
    (hok : ∀ i, ok i = true) :
    (SessionStore.destroy st sid ok).2 = none ∧
    (SessionStore.destroy st sid ok).1.live.filter (fun x => x.sid == sid) = [] ∧
    st.history.countP (fun h => h.sid == sid) + 1 ≤
      (SessionStore.destroy st sid ok).1.history.countP (fun h => h.sid == sid) := by
  refine ⟨rfl, ?_, ?_⟩
  · exact SessionStore.filter_not_filter_self st.live sid
  · show st.history.countP (fun h => h.sid == sid) + 1 ≤
      (st.history ++
        SessionStore.cloneSaves (st.live.filter (fun x => x.sid == sid)) ok).countP
        (fun h => h.sid == sid)
    rw [SessionStore.cloneSaves_all _ ok hok, List.countP_append]
    have hfind' : st.live.find? (fun x => x.sid == sid) = some r := hfind
    have hpr := List.find?_some hfind'
    have hml := List.mem_of_find?_eq_some hfind'
    have hmem : r ∈ st.live.filter (fun x => x.sid == sid) := by
      rw [List.mem_filter]
      exact ⟨hml, hpr⟩
    have hall : ∀ a ∈ (st.live.filter (fun x => x.sid == sid)).map toHistory,
        (a.sid == sid) = true := by
      intro a ha
      rcases List.mem_map.mp ha with ⟨x, hx, rfl⟩
      exact (List.mem_filter.mp hx).2
    have hcount : ((st.live.filter (fun x => x.sid == sid)).map toHistory).countP
        (fun h => h.sid == sid)
        = ((st.live.filter (fun x => x.sid == sid)).map toHistory).length :=
      List.countP_eq_length.mpr hall
    rw [hcount, List.length_map]
    have hpos : 0 < (st.live.filter (fun x => x.sid == sid)).length :=
      List.length_pos_of_mem hmem
    omega

/-- Witness for C3: destroying the store's only document "w". -/
theorem destroy_archives_then_removes_witness :
    (SessionStore.destroy wSt "w" (fun _ => true)).2 = none ∧
    (SessionStore.destroy wSt "w" (fun _ => true)).1.live.filter (fun x => x.sid == "w")
      = [] ∧
    wSt.history.countP (fun h => h.sid == "w") + 1 ≤
      (SessionStore.destroy wSt "w" (fun _ => true)).1.history.countP
        (fun h => h.sid == "w") :=
  destroy_archives_then_removes wSt "w" (fun _ => true) wRec rfl (fun _ => rfl)

/-- Claim C6: `get` on an id whose live document has `expires` in the
past (`now >= expires`) reports absence (no payload, no error) and has
removed the live document, so no live document with that id remains
and a later lookup finds nothing. -/
theorem get_expired_returns_absent_and_removes (st : StoreState) (now : Nat) (sid : String)
    (ok : Nat → Bool) (r : SessionRecord) (e : Nat)
    (hfind : SessionStore.findOne st.live sid = some r)
    (hexp : r.expires = some e) (hpast : e ≤ now) :
    (SessionStore.get st now sid ok).2.2 = none ∧
    (SessionStore.get st now sid ok).2.1 = none ∧
    (SessionStore.get st now sid ok).1.live.filter (fun x => x.sid == sid) = [] ∧
    SessionStore.findOne (SessionStore.get st now sid ok).1.live sid = none := by
  have hv : SessionStore.expiryValid now r = false := by
    have hnl : ¬ (now < e) := by omega
    simp [SessionStore.expiryValid, hexp, hnl]
  simp only [SessionStore.get, hfind, hv, Bool.false_eq_true, if_false]
  refine ⟨by trivial, by trivial, ?_, ?_⟩
  · exact SessionStore.filter_not_filter_self st.live sid
  · exact SessionStore.findOne_filter_not_self st.live sid

/-- Witness for C6: `get` on "w" at clock 10 when the document expires
at 10. -/
theorem get_expired_returns_absent_and_removes_witness :
    (SessionStore.get wSt 10 "w" (fun _ => true)).2.2 = none ∧
    (SessionStore.get wSt 10 "w" (fun _ => true)).2.1 = none ∧
    (SessionStore.get wSt 10 "w" (fun _ => true)).1.live.filter (fun x => x.sid == "w")
      = [] ∧
    SessionStore.findOne (SessionStore.get wSt 10 "w" (fun _ => true)).1.live "w" = none :=
  get_expired_returns_absent_and_removes wSt 10 "w" (fun _ => true) wRec 10 rfl rfl
    (by decide)

/-- Claim C7: archival clone failures are isolated.  Whatever the
per-clone save outcomes: the archival step reports no error; a clone
whose own save succeeds is archived regardless of the other clones'
failures; `destroy` reports no error and its effect on the live
collection is unchanged by archival failures; the sweep's effect on
the live collection is likewise unchanged; and the result `set`
reports is unchanged by the sweep's archival failures. -/
theorem archival_failures_isolated (hist : List HistoryRecord) (arr : List SessionRecord)
    (ok : Nat → Bool) (st : StoreState) (sid : String) (maxAge now : Nat) (p : Payload)
    (i : Nat) (hi : i < arr.length) (hoki : ok i = true) :
    (SessionStore.addSessionHistoryData hist arr ok).2 = none ∧
    toHistory (arr.get ⟨i, hi⟩) ∈ (SessionStore.addSessionHistoryData hist arr ok).1 ∧
    (SessionStore.destroy st sid ok).2 = none ∧
    (SessionStore.destroy st sid ok).1.live
      = (SessionStore.destroy st sid (fun _ => true)).1.live ∧
    (SessionStore.clearExpiredSessions st now ok).live
      = (SessionStore.clearExpiredSessions st now (fun _ => true)).live ∧
    (SessionStore.set maxAge st now sid p ok).2
      = (SessionStore.set maxAge st now sid p (fun _ => true)).2 := by
  refine ⟨rfl, ?_, rfl, rfl, rfl, ?_⟩
  · exact List.mem_append_right _ (SessionStore.toHistory_mem_cloneSaves arr ok i hi hoki)
  · exact set_snd_oblivious maxAge st now sid p ok (fun _ => true)

/-- Witness for C7 on a one-document fan-out with all saves
succeeding. -/
theorem archival_failures_isolated_witness :
    (SessionStore.addSessionHistoryData [] [wRec] (fun _ => true)).2 = none ∧
    toHistory ([wRec].get ⟨0, Nat.zero_lt_one⟩)
      ∈ (SessionStore.addSessionHistoryData [] [wRec] (fun _ => true)).1 ∧
    (SessionStore.destroy wSt "w" (fun _ => true)).2 = none ∧
    (SessionStore.destroy wSt "w" (fun _ => true)).1.live
      = (SessionStore.destroy wSt "w" (fun _ => true)).1.live ∧
    (SessionStore.clearExpiredSessions wSt 0 (fun _ => true)).live
      = (SessionStore.clearExpiredSessions wSt 0 (fun _ => true)).live ∧
    (SessionStore.set 100 wSt 0 "w" p5 (fun _ => true)).2
      = (SessionStore.set 100 wSt 0 "w" p5 (fun _ => true)).2 :=
  archival_failures_isolated [] [wRec] (fun _ => true) wSt "w" 100 0 p5 0
    Nat.zero_lt_one rfl

/-- Claim C1 (refuting the spec's invariant on this revision): a
payload with neither a top-level `user` nor a nested `passport.user`
is nevertheless persisted by `set`, which creates a live document and
reports success; the `_hasValidUserData` guard exists in the file but
is never invoked. -/
theorem set_persists_session_without_user :
    hasValidUserData noUserPayload = false ∧
    (SessionStore.set 100 emptyState 0 "a" noUserPayload (fun _ => true)).2 = none ∧
    (SessionStore.set 100 emptyState 0 "a" noUserPayload (fun _ => true)).1.live =
      [{ sid := "a", session := noUserPayload, lastAccessTime := 0, expires := some 100 }]
    := by
  refine ⟨rfl, rfl, ?_⟩
  decide

/-- Claim C2 (refuting the round-trip on this revision): after a
successful `set` of a payload whose `user` is "alice", the stored
document still carries `user = "alice"`, yet `get` before expiry
returns the payload with `user` overwritten to null (and `sid`
stamped), because `_getSessionUser` is applied to the document instead
of the stored payload. -/
theorem get_returns_null_user_despite_stored_user :
    (SessionStore.findOne aliceState.live "s1").map (fun r => r.session.user)
      = some (some "alice") ∧
    (SessionStore.get aliceState 5 "s1" (fun _ => true)).2.2
      = some { alicePayload with user := none, sid := some "s1" } := by
  refine ⟨?_, ?_⟩
  · decide
  · decide
